import Mathlib

/-!
Verification development for `get_indd_scans.py`: a tool that lists imaging
acquisitions from a remote service, extracts DICOM header metadata (with an
on-disk cache), filters subject labels to canonical INDD ids, and emits CSV rows.

The Python code is shallowly embedded: Python values are modelled by `PyVal`,
exceptions by `PyExc` with `Except`, the remote service and the pydicom
library by oracle functions collected in `Env`, the on-disk cache by an
explicit association list `Disk`, and observable effects (remote calls,
log warnings, emitted rows) by an explicit event trace `Ev`.
-/

/-- Python runtime values as they occur in this program: results of
`json.load`, pydicom element values, Flywheel classification maps.
Numeric DICOM decimal strings are modelled in their string form. -/
inductive PyVal where
  | none : PyVal
  | bool : Bool → PyVal
  | int : Int → PyVal
  | str : String → PyVal
  | list : List PyVal → PyVal
  | dict : List (String × PyVal) → PyVal

/-- Python exceptions raised by the operations this program performs. -/
inductive PyExc where
  | valueError
  | keyError (k : String)
  | indexError
  | attributeError
  | typeError
  | stopIteration
  | apiError
  | ioError
  | keyboardInterrupt
  | systemExit
deriving DecidableEq

/-- Python truthiness (`if x:`) for the values modelled here. -/
def pyTruthy : PyVal → Bool
  | .none => false
  | .bool b => b
  | .int n => n != 0
  | .str s => !(s == "")
  | .list xs => !xs.isEmpty
  | .dict fs => !fs.isEmpty

/-- Python `len(x)`; raises `TypeError` on unsized values. -/
def pyLen : PyVal → Except PyExc Nat
  | .str s => .ok s.length
  | .list xs => .ok xs.length
  | .dict fs => .ok fs.length
  | _ => .error .typeError

/-- Python `x.get(key, default)`: defined on dict-like values (dicts and
pydicom datasets are both modelled as `PyVal.dict`); any other receiver
raises `AttributeError`. -/
def pyGet (v : PyVal) (key : String) (dflt : PyVal) : Except PyExc PyVal :=
  match v with
  | .dict fs => .ok ((fs.lookup key).getD dflt)
  | _ => .error .attributeError

/-- Is `n` a contiguous sub-list of `h` (Python substring test)? -/
def subListIn (n : List Char) : List Char → Bool
  | [] => n == []
  | c :: t => ((c :: t).take n.length == n) || subListIn n t

/-- Python `key in container` for a string key. -/
def pyContains (v : PyVal) (key : String) : Except PyExc Bool :=
  match v with
  | .dict fs => .ok ((fs.lookup key).isSome)
  | .str s => .ok (subListIn key.toList s.toList)
  | .list xs => .ok (xs.any fun x => match x with | .str s => s == key | _ => false)
  | _ => .error .typeError

/-- Python `container[key]` for a string key. -/
def pySubscriptStr (v : PyVal) (key : String) : Except PyExc PyVal :=
  match v with
  | .dict fs =>
    match fs.lookup key with
    | some x => .ok x
    | Option.none => .error (.keyError key)
  | _ => .error .typeError

/-- Python `container[i]` for a non-negative integer index. -/
def pySubscriptNat (v : PyVal) (i : Nat) : Except PyExc PyVal :=
  match v with
  | .list xs =>
    match xs.get? i with
    | some x => .ok x
    | Option.none => .error .indexError
  | .str s =>
    match s.toList.get? i with
    | some c => .ok (.str (String.mk [c]))
    | Option.none => .error .indexError
  | .dict _ => .error (.keyError (toString i))
  | _ => .error .typeError

/-- Python `sep.join(x)`: joins an iterable of strings. -/
def pyJoin (sep : String) (v : PyVal) : Except PyExc String :=
  match v with
  | .str s => .ok (String.intercalate sep (s.toList.map fun c => String.mk [c]))
  | .list xs =>
    match xs.mapM (fun x => match x with | PyVal.str s => Except.ok s | _ => Except.error PyExc.typeError) with
    | .ok ss => .ok (String.intercalate sep ss)
    | .error e => .error e
  | .dict fs => .ok (String.intercalate sep (fs.map Prod.fst))
  | _ => .error .typeError

/-- Python `v == n` for an integer right-hand side (other types compare unequal). -/
def pyEqInt (v : PyVal) (n : Int) : Bool :=
  match v with
  | .int m => m == n
  | .bool b => (if b then (1 : Int) else 0) == n
  | _ => false

mutual
/-- Python `repr` of a value (string escaping inside reprs is not modelled). -/
def pyRepr : PyVal → String
  | .none => "None"
  | .bool true => "True"
  | .bool false => "False"
  | .int n => toString n
  | .str s => "\x27" ++ s ++ "\x27"
  | .list xs => "[" ++ String.intercalate ", " (pyReprList xs) ++ "]"
  | .dict fs => "\x7b" ++ pyReprFields fs ++ "\x7d"

/-- `repr` of each element of a list. -/
def pyReprList : List PyVal → List String
  | [] => []
  | v :: vs => pyRepr v :: pyReprList vs

/-- `repr` of dict fields, comma-separated. -/
def pyReprFields : List (String × PyVal) → String
  | [] => ""
  | [(k, v)] => "\x27" ++ k ++ "\x27: " ++ pyRepr v
  | (k, v) :: rest => "\x27" ++ k ++ "\x27: " ++ pyRepr v ++ ", " ++ pyReprFields rest
end

/-- Python `str(v)` = `"%s" % v`: identity on strings, `repr`-like otherwise
(`str(None) = "None"`, `str(3) = "3"`, containers render their repr). -/
def pyStr : PyVal → String
  | .str s => s
  | v => pyRepr v

/-! ## Subject-ID filter (`fn_filter_inddid`, lines 107-125)

The three regular expressions are embedded with Python `re` semantics:
`^` anchors at position 0, `.` does not match a newline, and `$` matches at
the end of the string or just before a newline at the end of the string. -/

/-- Semantics of `(.*)$` applied at the current position in Python `re`:
matches the remainder `r` iff `r` is newline-free, or `r` is a newline-free
list followed by one final newline; the group captures the newline-free part. -/
def matchDotStarDollar (r : List Char) : Option (List Char) :=
  if r.all (fun c => !(c == '\n')) then some r
  else if r.dropLast.all (fun c => !(c == '\n')) && (r.getLast? == some '\n') then
    some r.dropLast
  else none

/-- The character class `[0-9]` body of both digit patterns, as a predicate:
`sixForm c` holds when `c` is exactly six digit characters. -/
def sixForm (c : List Char) : Bool := c.length == 6 && c.all Char.isDigit

/-- The separator class `[\._\-]` of the third pattern. -/
def isSepChar (c : Char) : Bool := c == '.' || c == '_' || c == '-'

/-- The body `([0-9]{6})[\._\-]([0-9]{2})` as a predicate: nine characters,
digits at positions 0-5 and 7-8, a separator at position 6. -/
def sixSepTwoForm (c : List Char) : Bool :=
  c.length == 9 && (c.take 6).all Char.isDigit
    && (match c.get? 6 with | some s => isSepChar s | _ => false)
    && (c.drop 7).all Char.isDigit

/-- Semantics of `re.search('^[0-9]{6}$', t)`: the match (`z.group()`) spans
exactly six digits; `$` also matches just before a single trailing newline,
which the group excludes. -/
def matchSixDigits (t : List Char) : Option (List Char) :=
  if sixForm t then some t
  else if (t.getLast? == some '\n') && sixForm t.dropLast then some t.dropLast
  else none

/-- Semantics of `re.search('^([0-9]{6})[\._\-]([0-9]{2})$', t)`: six digits,
a separator, two digits, with `$` also matching before a single trailing
newline; returns the two digit groups. -/
def matchSixSepTwo (t : List Char) : Option (List Char × List Char) :=
  if sixSepTwoForm t then some (t.take 6, t.drop 7)
  else if (t.getLast? == some '\n') && sixSepTwoForm t.dropLast then
    some (t.dropLast.take 6, t.dropLast.drop 7)
  else none

/-- Semantics of the strip step (lines 110-112): `z = re.search('^IND{1,2}(.*)$', s)`;
on a match the name is replaced by `z.group(1)`. `D{1,2}` is greedy (two `D`s
preferred, backtracking to one), and the whole pattern, including `(.*)$`,
must match for the strip to happen. -/
def regexStripIND (s : List Char) : List Char :=
  if s.take 4 = ['I', 'N', 'D', 'D'] then
    match matchDotStarDollar (s.drop 4) with
    | some m => m
    | Option.none =>
      match matchDotStarDollar (s.drop 3) with
      | some m => m
      | Option.none => s
  else if s.take 3 = ['I', 'N', 'D'] then
    match matchDotStarDollar (s.drop 3) with
    | some m => m
    | Option.none => s
  else s

/-- The digit-pattern cascade of lines 114-125: try the six-digit pattern,
then the 6+separator+2 pattern (normalising the separator to `.`), else `None`. -/
def patternResult (t : List Char) : Option String :=
  match matchSixDigits t with
  | some ds => some (String.mk ds)
  | Option.none =>
    match matchSixSepTwo t with
    | some (d6, d2) => some (String.mk (d6 ++ '.' :: d2))
    | Option.none => none

/-- `fn_filter_inddid` (lines 107-125). -/
def fn_filter_inddid (subject_name : String) : Option String :=
  patternResult (regexStripIND subject_name.toList)

/-- The strip step exactly as the claim words it: drop an optional leading
`INDD`, else an optional leading `IND`. -/
def claimedStrip (s : List Char) : List Char :=
  if s.take 4 = ['I', 'N', 'D', 'D'] then s.drop 4
  else if s.take 3 = ['I', 'N', 'D'] then s.drop 3
  else s

/-- The claim's pattern cascade on a remainder `c`: exactly six digits are
returned unchanged; six digits, a separator and two digits are returned in the
normalised `NNNNNN.NN` form; anything else is no match. -/
def coreChecks (c : List Char) : Option String :=
  if sixForm c then some (String.mk c)
  else if sixSepTwoForm c then some (String.mk (c.take 6 ++ '.' :: c.drop 7))
  else none

/-- The subject-ID filter exactly as the claim states it: strip the optional
prefix, then apply the two digit patterns to the remainder as written. -/
def filter_id_claimed (subject_name : String) : Option String :=
  coreChecks (claimedStrip subject_name.toList)

/-- Drop one final newline if present (the tolerance added by `$`). -/
def dropFinalNewline (t : List Char) : List Char :=
  if t.getLast? == some '\n' then t.dropLast else t

/-- The claim as amended: same strip and patterns, except that the digit
patterns additionally accept and drop a single trailing newline (because `$`
matches just before a final newline), the returned value excluding it. -/
def filter_id_amended (subject_name : String) : Option String :=
  coreChecks (dropFinalNewline (claimedStrip subject_name.toList))

example : fn_filter_inddid "INDD123456" = some "123456" := by decide
example : fn_filter_inddid "IND123456.07" = some "123456.07" := by decide
example : fn_filter_inddid "abc123" = none := by decide
example : fn_filter_inddid "1234567" = none := by decide
example : fn_filter_inddid "123456\n" = some "123456" := by decide
example : filter_id_claimed "123456\n" = none := by decide
example : filter_id_amended "123456\n" = some "123456" := by decide
example : fn_filter_inddid "INDDD123456" = none := by decide
example : fn_filter_inddid "IND123456_07\n" = some "123456.07" := by decide

/-! ## Data model

Remote entities (sessions, acquisitions, attached files), the on-disk DICOM
cache, and the oracle environment for the remote service and pydicom. -/

/-- A file attached to an acquisition (the fields this program reads). -/
structure FwFile where
  name : String
  type : String
  classification : List (String × List String)
deriving DecidableEq

/-- `acq.parents`: identifiers of the enclosing session and project. -/
structure AcqParents where
  session : String
  project : String

/-- An acquisition (the fields this program reads). `modified_ordinal` models
`acq.modified.toordinal()`, the day-granularity ordinal of the modification time. -/
structure Acq where
  id : String
  label : String
  parents : AcqParents
  modified_ordinal : Nat
  files : List FwFile

/-- A session as returned by `client.get_session`. `timestamp_utc` models
`sess.timestamp.strftime("%Y-%m-%d %H:%M:%S")`, the already-formatted UTC stamp. -/
structure Session where
  subject_label : String
  timestamp_utc : String

/-- The per-session record stored in `sess_cache` (lines 295-299). -/
structure SessRec where
  indd_id : Option String
  subject_id : String
  session_ts : String

/-- Build the `sess_cache` record for a session (lines 286-299). -/
def mkSessRec (sess : Session) : SessRec :=
  { indd_id := fn_filter_inddid sess.subject_label
  , subject_id := sess.subject_label
  , session_ts := sess.timestamp_utc }

/-- The classification mapping of a file as a Python value. -/
def classificationVal (cls : List (String × List String)) : PyVal :=
  PyVal.dict (cls.map fun kv => (kv.1, PyVal.list (kv.2.map PyVal.str)))

/-- A file reference as a dict-like Python value: both the live `FileEntry`
object (observed only through `.get`) and its `f.to_dict()` serialisation. -/
def fileEntryVal (f : FwFile) : PyVal :=
  PyVal.dict [("name", .str f.name), ("type", .str f.type),
              ("classification", classificationVal f.classification)]

/-- A decoded DICOM header: tag name to element value (a pydicom `Dataset`
as this program observes it, through `.get`). -/
abbrev Dcm := List (String × PyVal)

/-- `dcm.get(name)` / `dcm.get(name, None)`: `None` when the tag is absent. -/
def dcmGet (d : Dcm) (k : String) : PyVal := (d.lookup k).getD .none

/-- What reading one cache file can yield: `open` fails, `json.load` raises
`ValueError`, or `json.load` returns a value. -/
inductive CacheRead where
  | unreadable
  | invalid
  | value (j : PyVal)

/-- The cache directory contents: association from file path to its read result
(absent path = `os.path.exists` is false). -/
abbrev Disk := List (String × CacheRead)

/-- `os.path.exists` + `open` + `json.load` for one cache path. -/
def diskRead (disk : Disk) (p : String) : Option CacheRead := disk.lookup p

/-- Writing one cache file (modelled as always succeeding). -/
def diskWrite (disk : Disk) (p : String) (v : CacheRead) : Disk := (p, v) :: disk

/-- `os.path.join(dicom_cache, '%s.json' % acq.id)`. -/
def cachePath (cdir id : String) : String := cdir ++ "/" ++ id ++ ".json"

/-- `zi = acq.get_file_zip_info(f.name)`: the zip member paths. -/
structure ZipInfo where
  members : List String

/-- `client.lookup(path)`: the resolved container. -/
structure LookupRes where
  id : String

/-- Observable events: remote calls that matter to the claims, log warnings,
and emitted CSV rows. -/
inductive Ev where
  | getSession (sid : String)
  | remoteFetch (acq_id fname : String)
  | cacheWrite (path : String)
  | logWarning (msg : String)
  | row (cells : List String)
deriving DecidableEq

/-- The oracle environment: the remote service (lookup, acquisition search,
session retrieval, zip-member access) and the pydicom library (header decode,
dataset JSON (de)serialisation). `get_session` and `iter_find` are modelled as
total; the calls that the claims treat as fallible return `Except`. -/
structure Env where
  lookup : String → Except PyExc LookupRes
  iter_find : String → List Acq
  get_session : String → Session
  zip_info : String → String → Except PyExc ZipInfo
  read_zip_member : String → String → String → Except PyExc String
  dcmread : String → Except PyExc Dcm
  from_json : PyVal → Except PyExc Dcm
  to_json : Dcm → String


/-! ## Column extractor (`make_output_text`, lines 211-259) -/

/-- Python `column.startswith(p)`. -/
def strStarts (s p : String) : Bool := s.toList.take p.toList.length == p.toList

/-- The `action_dict` of literal columns (lines 214-223). -/
def make_action_dict (sess : SessRec) (fw_acq : Acq) : List (String × PyVal) :=
  [ ("INDDID", match sess.indd_id with | some s => PyVal.str s | Option.none => PyVal.none)
  , ("FlywheelSubjectID", .str sess.subject_id)
  , ("FlywheelSessionTimestampUTC", .str sess.session_ts)
  , ("FlywheelSessionInternalID", .str fw_acq.parents.session)
  , ("FlywheelProjectInternalID", .str fw_acq.parents.project)
  , ("FlywheelAcquisitionLabel", .str fw_acq.label)
  , ("FlywheelSessionURL", .str ("https://upenn.flywheel.io/#/projects/"
      ++ fw_acq.parents.project ++ "/sessions/" ++ fw_acq.parents.session ++ "?tab=data")) ]

/-- The value `val` computed by the if/elif chain of `make_output_text`
(lines 225-257), before its `"%s"` rendering. -/
def resolve_value (sess : SessRec) (fw_acq : Acq) (fw_file : PyVal) (dcm : Dcm)
    (column : String) : Except PyExc PyVal :=
  match (make_action_dict sess fw_acq).lookup column with
  | some v => .ok v
  | Option.none =>
    if strStarts column "FlywheelAcquisition" then
      -- key=column[19:]; fcl=fw_file.get('classification', {});
      -- val = ';'.join(fcl[key]) if key in fcl else None
      let key := column.drop 19
      match pyGet fw_file "classification" (.dict []) with
      | .error e => .error e
      | .ok fcl =>
        match pyContains fcl key with
        | .error e => .error e
        | .ok false => .ok .none
        | .ok true =>
          match pySubscriptStr fcl key with
          | .error e => .error e
          | .ok x =>
            match pyJoin ";" x with
            | .error e => .error e
            | .ok s => .ok (.str s)
    else if strStarts column "DicomPixelSpacing" then
      -- spc=dcm.get('PixelSpacing');
      -- val = {'DicomPixelSpacingX': spc[0], 'DicomPixelSpacingY': spc[1]}[column]
      --       if spc is not None else None
      match dcmGet dcm "PixelSpacing" with
      | .none => .ok .none
      | spc =>
        match pySubscriptNat spc 0 with
        | .error e => .error e
        | .ok x =>
          match pySubscriptNat spc 1 with
          | .error e => .error e
          | .ok y =>
            if column == "DicomPixelSpacingX" then .ok x
            else if column == "DicomPixelSpacingY" then .ok y
            else .error (.keyError column)
    else if column == "DicomRadiopharmaceutical" then
      let rpis := dcmGet dcm "RadiopharmaceuticalInformationSequence"
      if pyTruthy rpis then
        match pyLen rpis with
        | .error e => .error e
        | .ok n =>
          if 0 < n then
            match pySubscriptNat rpis 0 with
            | .error e => .error e
            | .ok first =>
              match pyGet first "Radiopharmaceutical" .none with
              | .error e => .error e
              | .ok v => .ok v
          else .ok .none
      else .ok .none
    else if column == "DicomRadionuclide" then
      let rpis := dcmGet dcm "RadiopharmaceuticalInformationSequence"
      if pyTruthy rpis then
        match pyLen rpis with
        | .error e => .error e
        | .ok n =>
          if 0 < n then
            match pySubscriptNat rpis 0 with
            | .error e => .error e
            | .ok first =>
              match pyGet first "RadionuclideCodeSequence" .none with
              | .error e => .error e
              | .ok rcs =>
                if pyTruthy rcs then
                  match pyLen rcs with
                  | .error e => .error e
                  | .ok m =>
                    if 0 < m then
                      match pySubscriptNat rcs 0 with
                      | .error e => .error e
                      | .ok first2 =>
                        match pyGet first2 "CodeMeaning" .none with
                        | .error e => .error e
                        | .ok v => .ok v
                    else .ok .none
                else .ok .none
          else .ok .none
      else .ok .none
    else if strStarts column "Dicom" then
      -- val=dcm.get(column[5:], None)
      .ok (dcmGet dcm (column.drop 5))
    else .ok .none

/-- `make_output_text` (lines 211-259): resolve the column value, then render
it with `return "%s" % val`. -/
def make_output_text (sess : SessRec) (fw_acq : Acq) (fw_file : PyVal) (dcm : Dcm)
    (column : String) : Except PyExc String :=
  match resolve_value sess fw_acq fw_file dcm column with
  | .error e => .error e
  | .ok v => .ok (pyStr v)

/-! ## DICOM retrieval with cache (`fw_parse_acq_dicom`, lines 25-75) -/

/-- The file selected by `next(x for x in acq.files if (lambda f: f.type=='dicom'))`
(line 45). The generator condition is the lambda object itself, never applied;
a function object is always truthy, so the first file of any type is selected,
and an empty file list raises `StopIteration`. -/
def selectFirstFile (files : List FwFile) : Except PyExc FwFile :=
  match files with
  | [] => .error .stopIteration
  | f :: _ => .ok f

/-- Modelled from the spec: "fetch the first file of type `dicom` attached to
the acquisition" — the first file whose type tag is `dicom`. -/
def firstDicomTypedFile (files : List FwFile) : Option FwFile :=
  files.find? fun f => f.type == "dicom"

/-- The fetch path of `fw_parse_acq_dicom`: the `try` block of lines 43-64
(select a file, fetch zip info, read the first zip member, decode the header,
optionally write the cache entry) with the handlers of lines 66-75
(re-raise interrupts, warn and return `(None, None)` otherwise). -/
def fw_parse_fetch (env : Env) (acq : Acq) (dicom_cache : Option String)
    (disk : Disk) : Except PyExc ((Option Dcm × PyVal) × Disk × List Ev) :=
  let attempt : Except PyExc ((Option Dcm × PyVal) × Disk × List Ev) :=
    match selectFirstFile acq.files with
    | .error e => .error e
    | .ok f =>
      match env.zip_info acq.id f.name with
      | .error e => .error e
      | .ok zi =>
        match zi.members.get? 0 with
        | Option.none => .error .indexError
        | some member =>
          match env.read_zip_member acq.id f.name member with
          | .error e => .error e
          | .ok bytes =>
            match env.dcmread bytes with
            | .error e => .error e
            | .ok dcm =>
              match dicom_cache with
              | some cdir =>
                let fn_cache := cachePath cdir acq.id
                let cached : PyVal := .dict
                  [ ("dicom", .str (env.to_json dcm))
                  , ("file", fileEntryVal f)
                  , ("modtime", .int acq.modified_ordinal) ]
                .ok ((some dcm, fileEntryVal f),
                     diskWrite disk fn_cache (.value cached),
                     [.remoteFetch acq.id f.name, .cacheWrite fn_cache])
              | Option.none =>
                .ok ((some dcm, fileEntryVal f), disk, [.remoteFetch acq.id f.name])
  match attempt with
  | .ok r => .ok r
  | .error .keyboardInterrupt => .error .keyboardInterrupt
  | .error .systemExit => .error .systemExit
  | .error .stopIteration =>
    .ok ((Option.none, .none), disk,
         [.logWarning ("No DICOM files in acquisition " ++ acq.id)])
  | .error _ =>
    .ok ((Option.none, .none), disk,
         [.logWarning ("FlyWheel API Exception in acquisition " ++ acq.id)])

/-- `fw_parse_acq_dicom` (lines 25-75). The cache block (lines 28-40) guards
only `json.load` failures with `except (ValueError)`: an unreadable file, a
non-dict JSON value (whose `.get` raises `AttributeError`), and a non-ValueError
failure of `Dataset.from_json` all propagate; a JSON decode failure, a missing
entry and a modtime mismatch fall through to the fetch path. -/
def fw_parse_acq_dicom (env : Env) (acq : Acq) (dicom_cache : Option String)
    (disk : Disk) : Except PyExc ((Option Dcm × PyVal) × Disk × List Ev) :=
  match dicom_cache with
  | Option.none => fw_parse_fetch env acq Option.none disk
  | some cdir =>
    let fn_cache := cachePath cdir acq.id
    match diskRead disk fn_cache with
    | Option.none => fw_parse_fetch env acq (some cdir) disk
    | some .unreadable => .error .ioError
    | some .invalid => fw_parse_fetch env acq (some cdir) disk
    | some (.value j) =>
      match j with
      | .dict fs =>
        if pyEqInt ((fs.lookup "modtime").getD (.int 0)) acq.modified_ordinal then
          match env.from_json ((fs.lookup "dicom").getD .none) with
          | .ok dcm => .ok ((some dcm, (fs.lookup "file").getD .none), disk, [])
          | .error .valueError => fw_parse_fetch env acq (some cdir) disk
          | .error e => .error e
        else fw_parse_fetch env acq (some cdir) disk
      | _ => .error .attributeError

/-! ## Acquisition lister (`fw_make_acq_modality_filter` lines 130-146,
`fw_list_acq` lines 264-320, search-path loop lines 366-367) -/

/-- `fw_make_acq_modality_filter` (lines 130-146). `client.lookup(project_path)`
is unguarded, so its failure propagates; the subject lookup sits in a bare
`try/except` that swallows every exception (interrupts included) and yields
`None`. -/
def fw_make_acq_modality_filter (env : Env) (modality project_path : String)
    (subject : Option String) : Except PyExc (Option String) :=
  match env.lookup project_path with
  | .error e => .error e
  | .ok proj =>
    match subject with
    | some subj =>
      match env.lookup (project_path ++ "/" ++ subj) with
      | .ok s =>
        .ok (some ("files.modality=" ++ modality ++ ",parents.subject=" ++ s.id
              ++ ",parents.project=" ++ proj.id))
      | .error _ => .ok Option.none
    | Option.none =>
      .ok (some ("files.modality=" ++ modality ++ ",parents.project=" ++ proj.id))

/-- The mutable state of one `fw_list_acq` call: the per-call `sess_cache`
(line 274), the cache directory contents, the rows written so far, and the
event trace. -/
structure ListerState where
  sess_cache : List (String × SessRec)
  disk : Disk
  rows : List (List String)
  trace : List Ev

/-- Session resolution with memoisation (lines 280-299): on a `sess_cache`
miss, call `get_session`, log a warning when the subject label fails the INDD
filter, and store the session record. -/
def resolveSession (env : Env) (st : ListerState) (sid : String) : ListerState :=
  match st.sess_cache.lookup sid with
  | some _ => st
  | Option.none =>
    let sess := env.get_session sid
    let warn : List Ev :=
      match fn_filter_inddid sess.subject_label with
      | Option.none =>
        [.logWarning ("Subject ID failed to match INDD filter: " ++ sess.subject_label)]
      | some _ => []
    { st with
      sess_cache := (sid, mkSessRec sess) :: st.sess_cache,
      trace := st.trace ++ Ev.getSession sid :: warn }

/-- One iteration of the `for acq in client.acquisitions.iter_find(...)` loop
(lines 277-320): resolve the session through `sess_cache`, skip on a failed
subject-ID filter, parse the DICOM (skip on not-found), else render and emit
one row. -/
def listAcqStep (env : Env) (col_list : List String) (dicom_cache : Option String)
    (st : ListerState) (acq : Acq) : Except PyExc ListerState :=
  let sid := acq.parents.session
  let st1 := resolveSession env st sid
  let S := (st1.sess_cache.lookup sid).getD { indd_id := Option.none, subject_id := "", session_ts := "" }
  match S.indd_id with
  | Option.none => .ok st1
  | some _ =>
    match fw_parse_acq_dicom env acq dicom_cache st1.disk with
    | .error e => .error e
    | .ok ((Option.none, _f), disk2, tr) =>
      .ok { st1 with
            disk := disk2,
            trace := st1.trace ++ tr
              ++ [.logWarning ("Unable to extract DICOM for acquisition " ++ acq.label
                   ++ " in subject " ++ S.subject_id ++ " session " ++ S.session_ts)] }
    | .ok ((some dcm, fobj), disk2, tr) =>
      match col_list.mapM (fun col => make_output_text S acq fobj dcm col) with
      | .error e => .error e
      | .ok cells =>
        .ok { st1 with
              disk := disk2,
              rows := st1.rows ++ [cells],
              trace := st1.trace ++ tr ++ [.row cells] }

/-- The acquisition loop of `fw_list_acq`, folded over the streamed list. -/
def listLoop (env : Env) (col_list : List String) (dicom_cache : Option String) :
    ListerState → List Acq → Except PyExc ListerState
  | st, [] => .ok st
  | st, acq :: rest =>
    match listAcqStep env col_list dicom_cache st acq with
    | .error e => .error e
    | .ok st2 => listLoop env col_list dicom_cache st2 rest

/-- `fw_list_acq` (lines 264-320): build the filter (`None` means return with
no output), then run the acquisition loop from an empty session cache. -/
def fw_list_acq (env : Env) (modality project_path : String)
    (col_list : List String) (subject : Option String)
    (dicom_cache : Option String) (disk : Disk) :
    Except PyExc (List (List String) × Disk × List Ev) :=
  match fw_make_acq_modality_filter env modality project_path subject with
  | .error e => .error e
  | .ok Option.none => .ok ([], disk, [])
  | .ok (some filt) =>
    match listLoop env col_list dicom_cache
        { sess_cache := [], disk := disk, rows := [], trace := [] }
        (env.iter_find filt) with
    | .error e => .error e
    | .ok st => .ok (st.rows, st.disk, st.trace)

/-- The sequence of acquisitions that `fw_list_acq` iterates over: the stream
for the built filter, or nothing when the filter is `None` or its construction
fails. -/
def acqStream (env : Env) (modality project_path : String)
    (subject : Option String) : List Acq :=
  match fw_make_acq_modality_filter env modality project_path subject with
  | .ok (some filt) => env.iter_find filt
  | _ => []

/-- Specification-side characterisation of the emitted rows: walking the
acquisition sequence, an acquisition contributes exactly one row when (a) its
parent session's subject label passes the INDD filter and (b) the DICOM parse
(threaded through the evolving cache directory) yields a tag set; an
acquisition failing either condition contributes nothing and the walk
continues with the remaining acquisitions. Unlike the implementation, the
session is re-resolved every time instead of being memoised. -/
def rowsSpec (env : Env) (col_list : List String) (dicom_cache : Option String) :
    Disk → List Acq → Except PyExc (List (List String))
  | _, [] => .ok []
  | disk, acq :: rest =>
    let sess := env.get_session acq.parents.session
    match fn_filter_inddid sess.subject_label with
    | Option.none => rowsSpec env col_list dicom_cache disk rest
    | some _ =>
      match fw_parse_acq_dicom env acq dicom_cache disk with
      | .error e => .error e
      | .ok ((Option.none, _), disk2, _) => rowsSpec env col_list dicom_cache disk2 rest
      | .ok ((some dcm, fobj), disk2, _) =>
        match col_list.mapM (fun col => make_output_text (mkSessRec sess) acq fobj dcm col) with
        | .error e => .error e
        | .ok cells =>
          match rowsSpec env col_list dicom_cache disk2 rest with
          | .error e => .error e
          | .ok rs => .ok (cells :: rs)

/-- The hard-coded search-path list (line 21). -/
def search_paths : List String := ["cfn/PMC-CLINICAL", "dwolklab/NACC-SC"]

/-- The driver loop of `get_indd_scans` (lines 366-367): one `fw_list_acq`
call per search path, all rows streamed to the same CSV output; each call
starts with a fresh (empty) session cache. -/
def get_indd_scans_loop (env : Env) (modality : String) (col_list : List String)
    (subject : Option String) (dicom_cache : Option String) :
    List String → Disk → Except PyExc (List (List String) × Disk × List Ev)
  | [], disk => .ok ([], disk, [])
  | p :: rest, disk =>
    match fw_list_acq env modality p col_list subject dicom_cache disk with
    | .error e => .error e
    | .ok (rows1, disk1, tr1) =>
      match get_indd_scans_loop env modality col_list subject dicom_cache rest disk1 with
      | .error e => .error e
      | .ok (rows2, disk2, tr2) => .ok (rows1 ++ rows2, disk2, tr1 ++ tr2)

/-- Number of `get_session` calls for a given session id in a trace. -/
def countGetSession (tr : List Ev) (sid : String) : Nat :=
  (tr.filter fun e => match e with | .getSession s => s == sid | _ => false).length

/-! ## Concrete fixtures used by the witnesses and counterexamples -/

/-- A non-DICOM attached file. -/
def fNifti : FwFile := { name := "scan.nii.gz", type := "nifti", classification := [] }

/-- A DICOM-typed attached file. -/
def fDicom : FwFile := { name := "scan.dcm", type := "dicom", classification := [] }

/-- A small decoded tag set. -/
def dcmMR : Dcm := [("Modality", .str "MR")]

/-- An environment whose remote fetch succeeds and decodes to `dcmMR`. -/
def envFetchOk : Env :=
  { lookup := fun _ => .ok { id := "pid" }
  , iter_find := fun _ => []
  , get_session := fun _ => { subject_label := "", timestamp_utc := "" }
  , zip_info := fun _ _ => .ok { members := ["1.dcm"] }
  , read_zip_member := fun _ _ _ => .ok "bytes"
  , dcmread := fun _ => .ok dcmMR
  , from_json := fun _ => .error .valueError
  , to_json := fun _ => "dcmjson" }

/-- An acquisition whose first attached file is not DICOM-typed but a
DICOM-typed file is attached after it. -/
def acqMixedFiles : Acq :=
  { id := "a3", label := "T1w", parents := { session := "s3", project := "p3" }
  , modified_ordinal := 737000, files := [fNifti, fDicom] }

/-- An acquisition with a single attached file that is not DICOM-typed. -/
def acqNiftiOnly : Acq :=
  { id := "a7", label := "T1w", parents := { session := "s7", project := "p7" }
  , modified_ordinal := 737000, files := [fNifti] }

/-- An acquisition with a single DICOM-typed file. -/
def acqDicomOnly : Acq :=
  { id := "a5", label := "T1w", parents := { session := "s5", project := "p5" }
  , modified_ordinal := 737000, files := [fDicom] }

example : fw_parse_acq_dicom envFetchOk acqMixedFiles Option.none []
    = .ok ((some dcmMR, fileEntryVal fNifti), [], [.remoteFetch "a3" "scan.nii.gz"]) := rfl

example : fw_parse_acq_dicom envFetchOk acqDicomOnly (some "cache")
      [(cachePath "cache" "a5", CacheRead.value (PyVal.list []))]
    = .error .attributeError := rfl

/-- A session record that passed the subject-ID filter. -/
def sessW : SessRec :=
  { indd_id := some "123456", subject_id := "INDD123456", session_ts := "2020-01-01 00:00:00" }

/-- A tag set with a well-formed two-element PixelSpacing. -/
def dcmPS : Dcm := [("PixelSpacing", .list [.str "0.5", .str "0.5"])]

/-- A session whose subject label does not pass the INDD filter. -/
def sessNoMatch : Session :=
  { subject_label := "volunteer01", timestamp_utc := "2020-01-01 00:00:00" }

/-- One acquisition returned under every search filter. -/
def acqShared : Acq :=
  { id := "a9", label := "T1", parents := { session := "s9", project := "p9" }
  , modified_ordinal := 737000, files := [] }

/-- An environment in which both hard-coded search paths stream `acqShared`. -/
def envTwoPaths : Env :=
  { envFetchOk with
    lookup := fun p => .ok { id := p }
  , iter_find := fun _ => [acqShared]
  , get_session := fun _ => sessNoMatch }

/-- The trace produced by running both search paths over `envTwoPaths`. -/
def traceTwoPaths : List Ev :=
  [ .getSession "s9", .logWarning "Subject ID failed to match INDD filter: volunteer01"
  , .getSession "s9", .logWarning "Subject ID failed to match INDD filter: volunteer01" ]

/-- An environment whose project lookup always fails. -/
def envProjectMissing : Env := { envFetchOk with lookup := fun _ => .error .apiError }

/-- An environment that resolves the project but not the subject below it. -/
def envSubjectMissing : Env :=
  { envFetchOk with
    lookup := fun p =>
      if p == "cfn/PMC-CLINICAL" then .ok { id := "projid" } else .error .apiError }

/-! ## Claim theorems -/

/-- C3 (code bug at line 45): on a cache miss the code selects the FIRST
attached file of any type, not the first DICOM-typed file: with files
`[nifti, dicom]` the fetched and returned file reference is the nifti file,
while the documented intent (`firstDicomTypedFile`) selects the dicom file. -/
theorem fw_parse_first_file_not_dicom_eval :
    fw_parse_acq_dicom envFetchOk acqMixedFiles Option.none []
      = .ok ((some dcmMR, fileEntryVal fNifti), [], [.remoteFetch "a3" "scan.nii.gz"])
    ∧ firstDicomTypedFile acqMixedFiles.files = some fDicom
    ∧ fNifti.type = "nifti" := ⟨rfl, rfl, rfl⟩

/-- C7 (code bug at line 45): for an acquisition with no DICOM-typed file
attached (a single nifti-typed file whose bytes happen to decode as a DICOM
header), `fw_parse_acq_dicom` returns a found result instead of the
not-found pair that the claim requires. -/
theorem fw_parse_no_dicom_typed_file_still_found_eval :
    fw_parse_acq_dicom envFetchOk acqNiftiOnly Option.none []
      = .ok ((some dcmMR, fileEntryVal fNifti), [], [.remoteFetch "a7" "scan.nii.gz"])
    ∧ firstDicomTypedFile acqNiftiOnly.files = none := ⟨rfl, rfl⟩

/-- C6 (code bug at lines 133/269): when the project path cannot be resolved,
`client.lookup(project_path)` is unguarded, so `fw_list_acq` propagates the
exception instead of returning zero rows; only a failed SUBJECT lookup is
silently converted into an empty listing. -/
theorem fw_list_acq_project_lookup_failure_eval :
    fw_list_acq envProjectMissing "MR" "cfn/PMC-CLINICAL" [] Option.none Option.none []
      = .error .apiError
    ∧ fw_list_acq envSubjectMissing "MR" "cfn/PMC-CLINICAL" [] (some "123456") Option.none []
      = .ok ([], [], []) := ⟨rfl, rfl⟩

/-- C5 counterexample: a cache entry that is valid JSON but ill-typed (a JSON
list) makes `fw_parse_acq_dicom` raise `AttributeError` to its caller — not
cache-miss behaviour; with the entry absent the same call returns normally
through the fetch path. -/
theorem fw_parse_malformed_cache_raises_cex :
    fw_parse_acq_dicom envFetchOk acqDicomOnly (some "cache")
        [(cachePath "cache" "a5", CacheRead.value (PyVal.list []))]
      = .error .attributeError
    ∧ fw_parse_acq_dicom envFetchOk acqDicomOnly (some "cache") []
      = .ok ((some dcmMR, fileEntryVal fDicom),
             diskWrite [] (cachePath "cache" "a5")
               (.value (PyVal.dict [("dicom", .str "dcmjson"), ("file", fileEntryVal fDicom),
                                    ("modtime", .int 737000)])),
             [.remoteFetch "a5" "scan.dcm", .cacheWrite (cachePath "cache" "a5")]) :=
  ⟨rfl, rfl⟩

/-- C5 as amended: a cache entry whose content fails JSON decoding
(`json.load` raising `ValueError`) is treated exactly as a cache miss —
`fw_parse_acq_dicom` proceeds to the fetch path with the same state, just as
when the entry is absent. (Unreadable entries, valid-JSON non-object entries,
and non-`ValueError` failures of `Dataset.from_json` instead propagate.) -/
theorem fw_parse_invalid_json_is_miss (env : Env) (acq : Acq) (cdir : String)
    (disk : Disk)
    (h : diskRead disk (cachePath cdir acq.id) = some CacheRead.invalid
       ∨ diskRead disk (cachePath cdir acq.id) = Option.none) :
    fw_parse_acq_dicom env acq (some cdir) disk = fw_parse_fetch env acq (some cdir) disk := by
  rcases h with h | h <;> · simp only [fw_parse_acq_dicom]; rw [h]

/-- Witness for the C5 theorem `fw_parse_invalid_json_is_miss` at a concrete corrupt entry. -/
theorem fw_parse_invalid_json_is_miss_witness :
    fw_parse_acq_dicom envFetchOk acqDicomOnly (some "cache")
        [(cachePath "cache" "a5", CacheRead.invalid)]
      = fw_parse_fetch envFetchOk acqDicomOnly (some "cache")
        [(cachePath "cache" "a5", CacheRead.invalid)] :=
  fw_parse_invalid_json_is_miss envFetchOk acqDicomOnly "cache"
    [(cachePath "cache" "a5", CacheRead.invalid)] (Or.inl rfl)

/-- C4: on a cache hit — entry present and readable, JSON object, stored
modtime equal (as a Python `==` against the day ordinal), stored dicom field
decodable — `fw_parse_acq_dicom` returns the stored (tag set, file reference)
pair with an empty event trace, and the result does not depend on the
remote-service oracles at all (no remote call can have occurred). -/
theorem fw_parse_cache_hit_no_fetch (env : Env) (acq : Acq) (cdir : String)
    (disk : Disk) (fs : List (String × PyVal)) (d : Dcm)
    (hread : diskRead disk (cachePath cdir acq.id) = some (.value (.dict fs)))
    (hmod : pyEqInt ((fs.lookup "modtime").getD (.int 0)) acq.modified_ordinal = true)
    (hjson : env.from_json ((fs.lookup "dicom").getD .none) = .ok d) :
    ∀ zf rf,
      fw_parse_acq_dicom { env with zip_info := zf, read_zip_member := rf }
          acq (some cdir) disk
        = .ok ((some d, (fs.lookup "file").getD .none), disk, []) := by
  intro zf rf
  simp only [fw_parse_acq_dicom]
  rw [hread]
  simp [hmod, hjson]

/-- A cache entry as written by the code itself, with matching ordinal. -/
def fsHit : List (String × PyVal) :=
  [("modtime", .int 737000), ("dicom", .str "dcmjson"), ("file", .dict [("name", .str "f")])]

/-- A disk containing the hit entry for `acqDicomOnly`. -/
def diskHit : Disk := [(cachePath "cache" "a5", .value (.dict fsHit))]

/-- An environment whose `Dataset.from_json` succeeds with `dcmMR`. -/
def envHit : Env := { envFetchOk with from_json := fun _ => .ok dcmMR }

/-- Witness for the C4 theorem `fw_parse_cache_hit_no_fetch`: concrete hit, with remote
oracles replaced by always-failing ones, still returns the stored pair. -/
theorem fw_parse_cache_hit_no_fetch_witness :
    fw_parse_acq_dicom
        { envHit with
          zip_info := fun _ _ => .error .apiError
        , read_zip_member := fun _ _ _ => .error .apiError }
        acqDicomOnly (some "cache") diskHit
      = .ok ((some dcmMR, .dict [("name", .str "f")]), diskHit, []) :=
  fw_parse_cache_hit_no_fetch envHit acqDicomOnly "cache" diskHit fsHit dcmMR
    rfl rfl rfl (fun _ _ => .error .apiError) (fun _ _ _ => .error .apiError)

/-- C9 counterexample: the session cache is local to one `fw_list_acq` call
(line 274), so in a run over both hard-coded search paths the same session
identifier is resolved once per path — twice in the run — contradicting the
claim's "at most once per run, including across search paths". -/
theorem session_resolved_twice_across_paths_cex :
    get_indd_scans_loop envTwoPaths "MR" [] Option.none Option.none search_paths []
      = .ok ([], [], traceTwoPaths)
    ∧ countGetSession traceTwoPaths "s9" = 2 := ⟨rfl, rfl⟩

/-- C8 counterexample: the column `DicomPixelSpacingZ` is `Dicom`-prefixed and
is not one of the four columns the claim lists as special, yet the code routes
it into the PixelSpacing branch by prefix and raises `KeyError` when the tag
is present — it neither looks up the tag `PixelSpacingZ` (absent here, so the
claim requires the null marker) nor returns normally. -/
theorem make_output_text_pixelspacing_keyerror_cex :
    make_output_text sessW acqDicomOnly (fileEntryVal fDicom) dcmPS "DicomPixelSpacingZ"
      = .error (.keyError "DicomPixelSpacingZ")
    ∧ dcmGet dcmPS "PixelSpacingZ" = PyVal.none := ⟨rfl, rfl⟩

/-- C10: the CSV null marker is the literal string "None": `make_output_text`
renders every resolved value with `"%s"` (`pyStr`), the absent value `None`
renders as "None", and that marker is not the empty field. -/
theorem make_output_text_null_marker :
    (∀ sess acq f dcm col v, resolve_value sess acq f dcm col = .ok v →
        make_output_text sess acq f dcm col = .ok (pyStr v))
    ∧ pyStr PyVal.none = "None" ∧ ("None" : String) ≠ "" := by
  refine ⟨?_, rfl, by decide⟩
  intro sess acq f dcm col v h
  unfold make_output_text
  rw [h]

/-- Witness for the C10 theorem `make_output_text_null_marker`: a column matching
no rule resolves to the absent value and is emitted as "None". -/
theorem make_output_text_null_marker_witness :
    make_output_text sessW acqDicomOnly (fileEntryVal fDicom) dcmMR "Mystery"
      = .ok (pyStr PyVal.none) :=
  make_output_text_null_marker.1 sessW acqDicomOnly (fileEntryVal fDicom) dcmMR
    "Mystery" PyVal.none rfl

/-! ## Helper lemmas about `strStarts` and the action dict -/

/-- A successful startswith gives the literal prefix decomposition. -/
theorem take_of_strStarts (col p : String) (h : strStarts col p = true) :
    col.toList.take p.toList.length = p.toList := eq_of_beq h

/-- Conversely, the take equation gives startswith. -/
theorem strStarts_of_take (col p : String)
    (h : col.toList.take p.toList.length = p.toList) : strStarts col p = true := by
  unfold strStarts
  exact beq_iff_eq.mpr h

/-- A `DicomPixelSpacing`-prefixed column is `Dicom`-prefixed. -/
theorem strStarts_dicom_of_dps (col : String)
    (h : strStarts col "DicomPixelSpacing" = true) : strStarts col "Dicom" = true := by
  apply strStarts_of_take
  have h17 : col.toList.take 17 = "DicomPixelSpacing".toList :=
    take_of_strStarts col "DicomPixelSpacing" h
  show col.toList.take 5 = "Dicom".toList
  have h5 : (col.toList.take 17).take 5 = col.toList.take 5 := by
    rw [List.take_take]
    norm_num
  rw [← h5, h17]
  decide

/-- The first character of a string determines startswith failure: if `col`
starts with `p` and the head characters of `p` and `q` differ, `col` does not
start with `q`. -/
theorem strStarts_false_of_head_ne (col p q : String) (cp cq : Char)
    (hp : p.toList.get? 0 = some cp) (hq : q.toList.get? 0 = some cq)
    (hne : cp ≠ cq) (h : strStarts col p = true) : strStarts col q = false := by
  cases hF : strStarts col q with
  | false => rfl
  | true =>
    exfalso
    have hlp : 0 < p.toList.length := by
      cases hl : p.toList with
      | nil => rw [hl] at hp; cases hp
      | cons a t => simp
    have hlq : 0 < q.toList.length := by
      cases hl : q.toList with
      | nil => rw [hl] at hq; cases hq
      | cons a t => simp
    have h1 : col.toList.get? 0 = some cp := by
      rw [← List.get?_take hlp, take_of_strStarts col p h, hp]
    have h2 : col.toList.get? 0 = some cq := by
      rw [← List.get?_take hlq, take_of_strStarts col q hF, hq]
    rw [h1] at h2
    exact hne (Option.some.inj h2)

/-- A `Dicom`-prefixed column differs from any string not `Dicom`-prefixed. -/
theorem ne_of_dicom_starts (col k : String) (h : strStarts col "Dicom" = true)
    (hk : strStarts k "Dicom" = false) : col ≠ k := by
  intro e
  rw [e] at h
  rw [h] at hk
  cases hk

/-- The literal-column dict has no entry for a column equal to none of its
seven keys. -/
theorem action_lookup_none (sess : SessRec) (acq : Acq) (col : String)
    (h1 : col ≠ "INDDID") (h2 : col ≠ "FlywheelSubjectID")
    (h3 : col ≠ "FlywheelSessionTimestampUTC") (h4 : col ≠ "FlywheelSessionInternalID")
    (h5 : col ≠ "FlywheelProjectInternalID") (h6 : col ≠ "FlywheelAcquisitionLabel")
    (h7 : col ≠ "FlywheelSessionURL") :
    (make_action_dict sess acq).lookup col = Option.none := by
  have e1 : (col == "INDDID") = false := beq_eq_false_iff_ne.mpr h1
  have e2 : (col == "FlywheelSubjectID") = false := beq_eq_false_iff_ne.mpr h2
  have e3 : (col == "FlywheelSessionTimestampUTC") = false := beq_eq_false_iff_ne.mpr h3
  have e4 : (col == "FlywheelSessionInternalID") = false := beq_eq_false_iff_ne.mpr h4
  have e5 : (col == "FlywheelProjectInternalID") = false := beq_eq_false_iff_ne.mpr h5
  have e6 : (col == "FlywheelAcquisitionLabel") = false := beq_eq_false_iff_ne.mpr h6
  have e7 : (col == "FlywheelSessionURL") = false := beq_eq_false_iff_ne.mpr h7
  simp [make_action_dict, List.lookup, e1, e2, e3, e4, e5, e6, e7]

/-- C8 as amended: (i) every `Dicom`-prefixed column that is not routed to a
special branch — i.e. not `DicomPixelSpacing`-prefixed (the code dispatches
this branch on the PREFIX, not only the X/Y columns) and not the two
radiopharmaceutical columns — strips the `Dicom` prefix, looks up exactly the
remaining tag name, returns normally, and yields the null marker when the tag
is absent; (ii) every column matching none of the resolution rules yields the
null marker and returns normally. -/
theorem make_output_text_generic_dicom_amended (sess : SessRec) (acq : Acq)
    (f : PyVal) (dcm : Dcm) (col : String) :
    (strStarts col "Dicom" = true →
     strStarts col "DicomPixelSpacing" = false →
     col ≠ "DicomRadiopharmaceutical" →
     col ≠ "DicomRadionuclide" →
     make_output_text sess acq f dcm col = .ok (pyStr (dcmGet dcm (col.drop 5)))
     ∧ (dcm.lookup (col.drop 5) = Option.none →
        make_output_text sess acq f dcm col = .ok "None"))
    ∧ (strStarts col "Dicom" = false →
       strStarts col "FlywheelAcquisition" = false →
       col ∉ ["INDDID", "FlywheelSubjectID", "FlywheelSessionTimestampUTC",
              "FlywheelSessionInternalID", "FlywheelProjectInternalID",
              "FlywheelAcquisitionLabel", "FlywheelSessionURL"] →
       make_output_text sess acq f dcm col = .ok "None") := by
  constructor
  · intro h1 h2 h3 h4
    have hlk : (make_action_dict sess acq).lookup col = Option.none :=
      action_lookup_none sess acq col
        (ne_of_dicom_starts col _ h1 (by decide))
        (ne_of_dicom_starts col _ h1 (by decide))
        (ne_of_dicom_starts col _ h1 (by decide))
        (ne_of_dicom_starts col _ h1 (by decide))
        (ne_of_dicom_starts col _ h1 (by decide))
        (ne_of_dicom_starts col _ h1 (by decide))
        (ne_of_dicom_starts col _ h1 (by decide))
    have hF : strStarts col "FlywheelAcquisition" = false :=
      strStarts_false_of_head_ne col "Dicom" "FlywheelAcquisition" 'D' 'F'
        rfl rfl (by decide) h1
    have e3 : (col == "DicomRadiopharmaceutical") = false := beq_eq_false_iff_ne.mpr h3
    have e4 : (col == "DicomRadionuclide") = false := beq_eq_false_iff_ne.mpr h4
    have hres : resolve_value sess acq f dcm col = .ok (dcmGet dcm (col.drop 5)) := by
      simp only [resolve_value]
      rw [hlk]
      simp [hF, h2, e3, e4, h1]
    refine ⟨by unfold make_output_text; rw [hres], ?_⟩
    intro habs
    unfold make_output_text
    rw [hres]
    have hnone : dcmGet dcm (col.drop 5) = PyVal.none := by simp [dcmGet, habs]
    rw [hnone]
    rfl
  · intro g1 g2 g3
    simp only [List.mem_cons, List.not_mem_nil, or_false, not_or] at g3
    obtain ⟨n1, n2, n3, n4, n5, n6, n7⟩ := g3
    have hlk := action_lookup_none sess acq col n1 n2 n3 n4 n5 n6 n7
    have hdps : strStarts col "DicomPixelSpacing" = false := by
      cases hX : strStarts col "DicomPixelSpacing" with
      | false => rfl
      | true => rw [strStarts_dicom_of_dps col hX] at g1; cases g1
    have h3 : col ≠ "DicomRadiopharmaceutical" := by
      intro e; rw [e] at g1; exact absurd g1 (by decide)
    have h4 : col ≠ "DicomRadionuclide" := by
      intro e; rw [e] at g1; exact absurd g1 (by decide)
    have e3 : (col == "DicomRadiopharmaceutical") = false := beq_eq_false_iff_ne.mpr h3
    have e4 : (col == "DicomRadionuclide") = false := beq_eq_false_iff_ne.mpr h4
    have hres : resolve_value sess acq f dcm col = .ok PyVal.none := by
      simp only [resolve_value]
      rw [hlk]
      simp [g2, hdps, e3, e4, g1]
    unfold make_output_text
    rw [hres]
    rfl

/-- Witness for the C8 theorem `make_output_text_generic_dicom_amended`: a generic
tag column absent from the tag set, and an unknown column, both emit the null marker. -/
theorem make_output_text_generic_dicom_amended_witness :
    make_output_text sessW acqDicomOnly (fileEntryVal fDicom) dcmMR "DicomSliceThickness"
      = .ok "None"
    ∧ make_output_text sessW acqDicomOnly (fileEntryVal fDicom) dcmMR "Unknown"
      = .ok "None" :=
  ⟨((make_output_text_generic_dicom_amended sessW acqDicomOnly (fileEntryVal fDicom)
      dcmMR "DicomSliceThickness").1 (by decide) (by decide) (by decide) (by decide)).2 rfl,
   (make_output_text_generic_dicom_amended sessW acqDicomOnly (fileEntryVal fDicom)
      dcmMR "Unknown").2 (by decide) (by decide) (by decide)⟩

/-! ## Lemmas for the lister: the session cache is a transparent memo -/

/-- Every record in the session cache is the one recomputable from the
environment for its key. -/
def cacheConsistent (env : Env) (c : List (String × SessRec)) : Prop :=
  ∀ sid rec, c.lookup sid = some rec → rec = mkSessRec (env.get_session sid)

/-- `resolveSession` does not touch the cache directory. -/
theorem resolveSession_disk (env : Env) (st : ListerState) (sid : String) :
    (resolveSession env st sid).disk = st.disk := by
  unfold resolveSession
  split <;> rfl

/-- `resolveSession` does not emit rows. -/
theorem resolveSession_rows (env : Env) (st : ListerState) (sid : String) :
    (resolveSession env st sid).rows = st.rows := by
  unfold resolveSession
  split <;> rfl

/-- `resolveSession` keeps the cache consistent. -/
theorem resolveSession_consistent (env : Env) (st : ListerState) (sid : String)
    (hc : cacheConsistent env st.sess_cache) :
    cacheConsistent env (resolveSession env st sid).sess_cache := by
  unfold resolveSession
  split
  · exact hc
  · intro s r hr
    by_cases hs : s = sid
    · subst hs
      simp [List.lookup] at hr
      exact hr.symm
    · have hbeq : (s == sid) = false := beq_eq_false_iff_ne.mpr hs
      simp only [List.lookup, hbeq] at hr
      exact hc s r hr

/-- After `resolveSession`, the cache holds the recomputable record for `sid`. -/
theorem resolveSession_lookup (env : Env) (st : ListerState) (sid : String)
    (hc : cacheConsistent env st.sess_cache) :
    (resolveSession env st sid).sess_cache.lookup sid
      = some (mkSessRec (env.get_session sid)) := by
  unfold resolveSession
  cases hlk : st.sess_cache.lookup sid with
  | some rec =>
    simp only [hlk]
    rw [hc sid rec hlk]
  | none =>
    simp [List.lookup]

/-- The acquisition loop computes exactly the rows characterised by
`rowsSpec`: the per-call session memoisation is transparent. -/
theorem listLoop_rowsSpec (env : Env) (cols : List String) (cache : Option String) :
    ∀ (acqs : List Acq) (st st' : ListerState),
      cacheConsistent env st.sess_cache →
      listLoop env cols cache st acqs = .ok st' →
      ∃ rs, rowsSpec env cols cache st.disk acqs = .ok rs ∧ st'.rows = st.rows ++ rs := by
  intro acqs
  induction acqs with
  | nil =>
    intro st st' hc h
    simp only [listLoop] at h
    cases h
    exact ⟨[], rfl, (List.append_nil st.rows).symm⟩
  | cons acq rest ih =>
    intro st st' hc h
    simp only [listLoop] at h
    have hc1 := resolveSession_consistent env st acq.parents.session hc
    have hlk1 := resolveSession_lookup env st acq.parents.session hc
    have hdisk1 := resolveSession_disk env st acq.parents.session
    have hrows1 := resolveSession_rows env st acq.parents.session
    simp only [listAcqStep, hlk1, Option.getD_some, mkSessRec] at h
    cases hind : fn_filter_inddid (env.get_session acq.parents.session).subject_label with
    | none =>
      simp only [hind] at h
      obtain ⟨rs, hspec, hrows⟩ := ih (resolveSession env st acq.parents.session) st' hc1 h
      refine ⟨rs, ?_, ?_⟩
      · simp only [rowsSpec, hind]
        rw [hdisk1] at hspec
        exact hspec
      · rw [hrows, hrows1]
    | some x =>
      simp only [hind] at h
      rw [hdisk1] at h
      split at h
      · cases h
      · rename_i st2 heq
        split at heq
        · cases heq
        · rename_i f d2 tr hp
          cases heq
          obtain ⟨rs, hspec, hrows⟩ := ih _ st' (by exact hc1) h
          refine ⟨rs, ?_, ?_⟩
          · simp only [rowsSpec, hind, hp]
            exact hspec
          · rw [hrows]
            show (resolveSession env st acq.parents.session).rows ++ rs = st.rows ++ rs
            rw [hrows1]
        · rename_i dcm fobj d2 tr hp
          split at heq
          · cases heq
          · rename_i cells hm
            cases heq
            obtain ⟨rs, hspec, hrows⟩ := ih _ st' (by exact hc1) h
            have hspec2 : rowsSpec env cols cache d2 rest = .ok rs := hspec
            refine ⟨cells :: rs, ?_, ?_⟩
            · simp only [rowsSpec, mkSessRec, hind, hp, hm, hspec2]
            · rw [hrows]
              show ((resolveSession env st acq.parents.session).rows ++ [cells]) ++ rs
                  = st.rows ++ (cells :: rs)
              rw [hrows1, List.append_assoc]
              rfl

/-- C2: when `fw_list_acq` returns normally, its emitted rows are exactly those
characterised by `rowsSpec` over the streamed acquisitions — one row per
acquisition whose (a) parent-session subject label passes the INDD filter and
(b) DICOM parse yields a tag set, in stream order. The second and third
conjuncts state the skip behaviour explicitly: an acquisition failing (a) or
(b) contributes no row and the characterisation continues with the remaining
acquisitions unchanged, so a skipped acquisition never prevents later rows. -/
theorem fw_list_acq_rows_characterisation (env : Env) (modality project_path : String)
    (cols : List String) (subject : Option String) (cache : Option String)
    (disk : Disk) (rows : List (List String)) (disk2 : Disk) (tr : List Ev)
    (h : fw_list_acq env modality project_path cols subject cache disk
          = .ok (rows, disk2, tr)) :
    rowsSpec env cols cache disk (acqStream env modality project_path subject) = .ok rows
    ∧ (∀ (a : Acq) (d : Disk) (rest : List Acq),
        fn_filter_inddid (env.get_session a.parents.session).subject_label = Option.none →
        rowsSpec env cols cache d (a :: rest) = rowsSpec env cols cache d rest)
    ∧ (∀ (a : Acq) (d : Disk) (rest : List Acq) (x : String) (fobj : PyVal)
         (d2 : Disk) (tr2 : List Ev),
        fn_filter_inddid (env.get_session a.parents.session).subject_label = some x →
        fw_parse_acq_dicom env a cache d = .ok ((Option.none, fobj), d2, tr2) →
        rowsSpec env cols cache d (a :: rest) = rowsSpec env cols cache d2 rest) := by
  refine ⟨?_, ?_, ?_⟩
  · unfold fw_list_acq at h
    unfold acqStream
    cases hf : fw_make_acq_modality_filter env modality project_path subject with
    | error e =>
      rw [hf] at h
      cases h
    | ok o =>
      cases o with
      | none =>
        simp only [hf] at h
        cases h
        rfl
      | some filt =>
        simp only [hf] at h
        cases hl : listLoop env cols cache
            { sess_cache := [], disk := disk, rows := [], trace := [] }
            (env.iter_find filt) with
        | error e =>
          rw [hl] at h
          cases h
        | ok stf =>
          simp only [hl] at h
          cases h
          obtain ⟨rs, hspec, hrows⟩ := listLoop_rowsSpec env cols cache
            (env.iter_find filt)
            { sess_cache := [], disk := disk, rows := [], trace := [] } stf
            (by intro s r hr; cases hr) hl
          rw [hrows]
          simpa using hspec
  · intro a d rest hnone
    simp only [rowsSpec, hnone]
  · intro a d rest x fobj d2 tr2 hsome hparse
    simp only [rowsSpec, hsome, hparse]

/-- A session whose label carries an INDD id. -/
def sessGood : Session := { subject_label := "INDD123456", timestamp_utc := "2021-05-04 10:00:00" }

/-- An acquisition in the matching session. -/
def acqGood : Acq :=
  { id := "ag", label := "T1", parents := { session := "sg", project := "pg" }
  , modified_ordinal := 737000, files := [fDicom] }

/-- An acquisition in the non-matching session. -/
def acqBad : Acq :=
  { id := "ab", label := "T2", parents := { session := "sb", project := "pb" }
  , modified_ordinal := 737000, files := [fDicom] }

/-- The end-to-end environment of the spec's test: one matching acquisition
with valid DICOM, one with an unmatched subject label. -/
def envEndToEnd : Env :=
  { envFetchOk with
    iter_find := fun _ => [acqGood, acqBad]
  , get_session := fun sid => if sid == "sg" then sessGood else sessNoMatch }

/-- The trace of the end-to-end run. -/
def traceEndToEnd : List Ev :=
  [ .getSession "sg", .remoteFetch "ag" "scan.dcm", .row ["123456"]
  , .getSession "sb", .logWarning "Subject ID failed to match INDD filter: volunteer01" ]

/-- Witness for the C2 theorem `fw_list_acq_rows_characterisation`: of two
acquisitions, only the one with a matching subject and decodable DICOM yields a row. -/
theorem fw_list_acq_rows_characterisation_witness :
    rowsSpec envEndToEnd ["INDDID"] Option.none []
        (acqStream envEndToEnd "MR" "proj" Option.none) = .ok [["123456"]] :=
  (fw_list_acq_rows_characterisation envEndToEnd "MR" "proj" ["INDDID"] Option.none
    Option.none [] [["123456"]] [] traceEndToEnd rfl).1

/-! ## Lemmas for counting `get_session` calls (C9) -/

/-- Count distributes over trace concatenation. -/
theorem countGS_append (a b : List Ev) (sid : String) :
    countGetSession (a ++ b) sid = countGetSession a sid + countGetSession b sid := by
  simp [countGetSession, List.filter_append]

/-- The fetch path never calls `get_session`. -/
theorem fetch_trace_no_getSession (env : Env) (acq : Acq) (cache : Option String)
    (disk : Disk) (r : Option Dcm × PyVal) (d2 : Disk) (tr : List Ev) (sid : String)
    (h : fw_parse_fetch env acq cache disk = .ok (r, d2, tr)) :
    countGetSession tr sid = 0 := by
  simp only [fw_parse_fetch] at h
  split at h
  · rename_i r' heq
    cases h
    repeat' split at heq
    all_goals first
      | (cases heq; rfl)
      | cases heq
  · cases h
  · cases h
  · cases h; rfl
  · cases h; rfl

/-- `fw_parse_acq_dicom` never calls `get_session`. -/
theorem parse_trace_no_getSession (env : Env) (acq : Acq) (cache : Option String)
    (disk : Disk) (r : Option Dcm × PyVal) (d2 : Disk) (tr : List Ev) (sid : String)
    (h : fw_parse_acq_dicom env acq cache disk = .ok (r, d2, tr)) :
    countGetSession tr sid = 0 := by
  cases cache with
  | none =>
    simp only [fw_parse_acq_dicom] at h
    exact fetch_trace_no_getSession env acq Option.none disk r d2 tr sid h
  | some cdir =>
    simp only [fw_parse_acq_dicom] at h
    split at h
    · exact fetch_trace_no_getSession env acq (some cdir) disk r d2 tr sid h
    · cases h
    · exact fetch_trace_no_getSession env acq (some cdir) disk r d2 tr sid h
    · split at h
      · split at h
        · split at h
          · cases h; rfl
          · exact fetch_trace_no_getSession env acq (some cdir) disk r d2 tr sid h
          · cases h
        · exact fetch_trace_no_getSession env acq (some cdir) disk r d2 tr sid h
      · cases h

/-- Invariant tying the trace to the session cache: a session id has been
fetched exactly once iff it is in the cache, never more. -/
def sessionCounted (st : ListerState) : Prop :=
  ∀ sid, countGetSession st.trace sid
    = (if (st.sess_cache.lookup sid).isSome then 1 else 0)

/-- `resolveSession` preserves the invariant: it fetches only on a cache miss
and then records the id. -/
theorem resolveSession_counted (env : Env) (st : ListerState) (sid0 : String)
    (hi : sessionCounted st) : sessionCounted (resolveSession env st sid0) := by
  unfold resolveSession
  split
  · exact hi
  · rename_i hlk
    intro s
    have h0 := hi s
    show countGetSession (st.trace ++ Ev.getSession sid0 ::
        (match fn_filter_inddid (env.get_session sid0).subject_label with
         | Option.none => [Ev.logWarning ("Subject ID failed to match INDD filter: "
             ++ (env.get_session sid0).subject_label)]
         | some _ => [])) s
      = if (List.lookup s ((sid0, mkSessRec (env.get_session sid0)) :: st.sess_cache)).isSome
        then 1 else 0
    by_cases hs : s = sid0
    · subst hs
      rw [hlk] at h0
      simp only [Option.isSome_none, Bool.false_eq_true, if_false] at h0
      simp only [countGetSession] at h0
      cases hfn : fn_filter_inddid (env.get_session s).subject_label <;>
        simp [hfn, countGetSession, List.filter_append, List.filter, List.lookup, h0]
    · have hbeq : (s == sid0) = false := beq_eq_false_iff_ne.mpr hs
      have hbeq2 : (sid0 == s) = false := beq_eq_false_iff_ne.mpr (Ne.symm hs)
      simp only [countGetSession] at h0
      cases hfn : fn_filter_inddid (env.get_session sid0).subject_label <;>
        · simp [hfn, countGetSession, List.filter_append, List.filter, List.lookup,
                hbeq, hbeq2, h0]
          rw [hbeq]

/-- Appending get_session-free events and changing disk/rows keeps the
invariant. -/
theorem sessionCounted_extend (st1 : ListerState) (d2 : Disk) (tr extra : List Ev)
    (hcount : ∀ s, countGetSession tr s = 0)
    (hextra : ∀ s, countGetSession extra s = 0)
    (rows2 : List (List String)) (hi : sessionCounted st1) :
    sessionCounted { sess_cache := st1.sess_cache, disk := d2, rows := rows2,
                     trace := st1.trace ++ tr ++ extra } := by
  intro s
  show countGetSession (st1.trace ++ tr ++ extra) s
    = if (List.lookup s st1.sess_cache).isSome then 1 else 0
  rw [countGS_append, countGS_append, hcount, hextra, hi s]
  simp

/-- One loop iteration preserves the invariant. -/
theorem listAcqStep_counted (env : Env) (cols : List String) (cache : Option String)
    (st : ListerState) (acq : Acq) (st2 : ListerState)
    (hi : sessionCounted st)
    (h : listAcqStep env cols cache st acq = .ok st2) : sessionCounted st2 := by
  have hi1 := resolveSession_counted env st acq.parents.session hi
  simp only [listAcqStep] at h
  split at h
  · cases h
    exact hi1
  · split at h
    · cases h
    · rename_i f d2 tr hp
      cases h
      exact sessionCounted_extend _ d2 tr _
        (fun s => parse_trace_no_getSession _ _ _ _ _ _ _ s hp) (by intro s; rfl) _ hi1
    · rename_i dcm fobj d2 tr hp
      split at h
      · cases h
      · rename_i cells hm
        cases h
        exact sessionCounted_extend _ d2 tr _
          (fun s => parse_trace_no_getSession _ _ _ _ _ _ _ s hp) (by intro s; rfl) _ hi1

/-- The whole loop preserves the invariant. -/
theorem listLoop_counted (env : Env) (cols : List String) (cache : Option String) :
    ∀ (acqs : List Acq) (st st' : ListerState), sessionCounted st →
      listLoop env cols cache st acqs = .ok st' → sessionCounted st' := by
  intro acqs
  induction acqs with
  | nil =>
    intro st st' hi h
    simp only [listLoop] at h
    cases h
    exact hi
  | cons a rest ih =>
    intro st st' hi h
    simp only [listLoop] at h
    cases hstep : listAcqStep env cols cache st a with
    | error e => rw [hstep] at h; cases h
    | ok st2 =>
      simp only [hstep] at h
      exact ih st2 st' (listAcqStep_counted env cols cache st a st2 hi hstep) h

/-- C9 as amended: within ONE `fw_list_acq` invocation (one search path), the
parent session is resolved at most once per unique session identifier — the
per-call in-memory cache serves repeats. (The cache is re-created per search
path, so across paths the same session is resolved once per path, see the
counterexample.) -/
theorem fw_list_acq_session_resolved_once (env : Env) (modality project_path : String)
    (cols : List String) (subject : Option String) (cache : Option String)
    (disk : Disk) (rows : List (List String)) (disk2 : Disk) (tr : List Ev)
    (h : fw_list_acq env modality project_path cols subject cache disk
          = .ok (rows, disk2, tr)) :
    ∀ sid, countGetSession tr sid ≤ 1 := by
  intro sid
  unfold fw_list_acq at h
  cases hf : fw_make_acq_modality_filter env modality project_path subject with
  | error e => rw [hf] at h; cases h
  | ok o =>
    cases o with
    | none =>
      rw [hf] at h
      cases h
      simp [countGetSession, List.filter]
    | some filt =>
      simp only [hf] at h
      cases hl : listLoop env cols cache
          { sess_cache := [], disk := disk, rows := [], trace := [] }
          (env.iter_find filt) with
      | error e => rw [hl] at h; cases h
      | ok stf =>
        simp only [hl] at h
        cases h
        have hc := listLoop_counted env cols cache (env.iter_find filt)
          { sess_cache := [], disk := disk, rows := [], trace := [] } stf
          (by intro s; simp [countGetSession, List.filter, List.lookup]) hl
        rw [hc sid]
        split <;> omega

/-- Witness for the C9 theorem `fw_list_acq_session_resolved_once` on a concrete run. -/
theorem fw_list_acq_session_resolved_once_witness :
    countGetSession [Ev.getSession "s9",
        Ev.logWarning "Subject ID failed to match INDD filter: volunteer01"] "s9" ≤ 1 :=
  fw_list_acq_session_resolved_once envTwoPaths "MR" "cfn/PMC-CLINICAL" [] Option.none
    Option.none [] [] [] _ rfl "s9"

/-! ## Lemmas for the subject-ID filter (C1) -/

/-- A list whose last element is a newline contains a newline. -/
theorem nl_mem_of_getLast (c : List Char) (h : (c.getLast? == some '\n') = true) :
    '\n' ∈ c := by
  have he : c.getLast? = some '\n' := eq_of_beq h
  have hd : c.dropLast ++ ['\n'] = c := List.dropLast_append_getLast? '\n' he
  rw [← hd]
  exact List.mem_append.mpr (Or.inr (by simp))

/-- A newline-free list is unchanged by `dropFinalNewline`. -/
theorem dropFinalNewline_nlFree (c : List Char)
    (h : c.all (fun x => !(x == '\n')) = true) : dropFinalNewline c = c := by
  unfold dropFinalNewline
  cases hl : (c.getLast? == some '\n') with
  | false => simp
  | true =>
    exfalso
    have hm : '\n' ∈ c := nl_mem_of_getLast c hl
    have := (List.all_eq_true.mp h) '\n' hm
    simp at this

/-- A list containing a newline is not six digits. -/
theorem sixForm_nl (c : List Char) (h : '\n' ∈ c) : sixForm c = false := by
  unfold sixForm
  have hall : c.all Char.isDigit = false := List.all_eq_false.mpr ⟨'\n', h, by decide⟩
  simp [hall]

/-- A list containing a newline is not six digits + separator + two digits. -/
theorem sixSepTwoForm_nl (c : List Char) (h : '\n' ∈ c) : sixSepTwoForm c = false := by
  unfold sixSepTwoForm
  have hsplit := List.take_append_drop 6 c
  rw [← hsplit] at h
  rcases List.mem_append.mp h with h6 | h6
  · have hall : (c.take 6).all Char.isDigit = false :=
      List.all_eq_false.mpr ⟨'\n', h6, by decide⟩
    simp [hall]
  · cases hd : c.drop 6 with
    | nil => rw [hd] at h6; cases h6
    | cons x rest =>
      rw [hd] at h6
      rcases List.mem_cons.mp h6 with hx | hrest
      · have hget : getElem? c 6 = some '\n' := by
          have hdd : getElem? (c.drop 6) 0 = getElem? c 6 := by
            rw [List.getElem?_drop]
          rw [← hdd, hd, ← hx]
          simp
        simp [hget, isSepChar]
      · have h7 : c.drop 7 = rest := by
          have hdd : (c.drop 6).drop 1 = c.drop 7 := List.drop_drop 1 6 c
          rw [hd] at hdd
          exact hdd.symm ▸ rfl
        have hall : (c.drop 7).all Char.isDigit = false := by
          rw [h7]
          exact List.all_eq_false.mpr ⟨'\n', hrest, by decide⟩
        simp [hall]

/-- The claim's pattern cascade rejects any remainder containing a newline. -/
theorem coreChecks_nl (c : List Char) (h : '\n' ∈ c) : coreChecks c = Option.none := by
  unfold coreChecks
  simp [sixForm_nl c h, sixSepTwoForm_nl c h]

/-- The code's pattern cascade equals the claim's cascade applied after
dropping one final newline. -/
theorem patternResult_eq_coreChecks (t : List Char) :
    patternResult t = coreChecks (dropFinalNewline t) := by
  unfold patternResult matchSixDigits matchSixSepTwo coreChecks dropFinalNewline
  cases hl : (t.getLast? == some '\n') with
  | false =>
    cases h6 : sixForm t <;> cases h9 : sixSepTwoForm t <;> simp [hl, h6, h9]
  | true =>
    have hm : '\n' ∈ t := nl_mem_of_getLast t hl
    have h6 := sixForm_nl t hm
    have h9 := sixSepTwoForm_nl t hm
    cases h6d : sixForm t.dropLast <;> cases h9d : sixSepTwoForm t.dropLast <;>
      simp [hl, h6, h9, h6d, h9d]

/-- A successful `(.*)$` match captures the input minus one final newline, and
the capture is newline-free. -/
theorem mds_some (r m : List Char) (h : matchDotStarDollar r = some m) :
    m = dropFinalNewline r ∧ m.all (fun x => !(x == '\n')) = true := by
  unfold matchDotStarDollar at h
  split_ifs at h with h1 h2
  · injection h with h
    subst h
    exact ⟨(dropFinalNewline_nlFree r h1).symm, h1⟩
  · injection h with h
    subst h
    rw [Bool.and_eq_true] at h2
    refine ⟨?_, h2.1⟩
    unfold dropFinalNewline
    simp [h2.2]

/-- A failed `(.*)$` match leaves a newline even after dropping a final one. -/
theorem mds_none_nl (r : List Char) (h : matchDotStarDollar r = Option.none) :
    '\n' ∈ dropFinalNewline r := by
  unfold matchDotStarDollar at h
  split_ifs at h with h1 h2
  unfold dropFinalNewline
  cases hgl : (r.getLast? == some '\n') with
  | true =>
    simp only [hgl, if_true]
    have hA : r.dropLast.all (fun x => !(x == '\n')) = false := by
      cases hA2 : r.dropLast.all (fun x => !(x == '\n')) with
      | false => rfl
      | true => exact absurd (by rw [hA2, hgl]; rfl) h2
    obtain ⟨y, hy, hpy⟩ := List.all_eq_false.mp hA
    have hy2 : y = '\n' := by simpa using hpy
    rwa [hy2] at hy
  | false =>
    simp only [hgl, Bool.false_eq_true, if_false]
    have hA : r.all (fun x => !(x == '\n')) = false := by
      cases hA2 : r.all (fun x => !(x == '\n')) with
      | false => rfl
      | true => exact absurd hA2 h1
    obtain ⟨y, hy, hpy⟩ := List.all_eq_false.mp hA
    have hy2 : y = '\n' := by simpa using hpy
    rwa [hy2] at hy

/-- The greedy `D{1,2}` backtrack never rescues a failed `(.*)$` match:
prepending one character to a failing remainder still fails. -/
theorem mds_none_cons (r : List Char) (h : matchDotStarDollar r = Option.none) :
    matchDotStarDollar ('D' :: r) = Option.none := by
  unfold matchDotStarDollar at h ⊢
  split_ifs at h with h1 h2
  split_ifs with g1 g2
  · exfalso
    apply h1
    rw [List.all_cons] at g1
    rw [Bool.and_eq_true] at g1
    exact g1.2
  · exfalso
    cases r with
    | nil => exact h1 rfl
    | cons a as =>
      apply h2
      have e1 : ('D' :: a :: as).dropLast = 'D' :: (a :: as).dropLast := rfl
      have e2 : ('D' :: a :: as).getLast? = (a :: as).getLast? := by
        simp [List.getLast?_cons_cons]
      rw [e1, e2, List.all_cons] at g2
      rw [Bool.and_eq_true] at g2
      have g21 := g2.1
      rw [Bool.and_eq_true] at g21
      rw [Bool.and_eq_true]
      exact ⟨g21.2, g2.2⟩
  · rfl

/-- A list starting with a non-digit is not six digits. -/
theorem sixForm_head_nondigit (x : Char) (rest : List Char)
    (hx : Char.isDigit x = false) : sixForm (x :: rest) = false := by
  unfold sixForm
  simp [hx]

/-- A list starting with a non-digit is not six digits + separator + two digits. -/
theorem sixSepTwoForm_head_nondigit (x : Char) (rest : List Char)
    (hx : Char.isDigit x = false) : sixSepTwoForm (x :: rest) = false := by
  unfold sixSepTwoForm
  simp [hx]

/-- The digit-pattern cascade rejects any input starting with a non-digit. -/
theorem patternResult_head_nondigit (x : Char) (rest : List Char)
    (hx : Char.isDigit x = false) : patternResult (x :: rest) = Option.none := by
  unfold patternResult matchSixDigits matchSixSepTwo
  have h6 := sixForm_head_nondigit x rest hx
  have h9 := sixSepTwoForm_head_nondigit x rest hx
  cases rest with
  | nil =>
    simp [h6, h9, sixForm, sixSepTwoForm]
  | cons y ys =>
    have e1 : (x :: y :: ys).dropLast = x :: (y :: ys).dropLast := rfl
    have h6d := sixForm_head_nondigit x ((y :: ys).dropLast) hx
    have h9d := sixSepTwoForm_head_nondigit x ((y :: ys).dropLast) hx
    rw [e1]
    simp [h6, h9, h6d, h9d]

/-- C1 counterexample: on the input "123456\n" the code returns "123456"
(Python's `$` matches just before a trailing newline), while the claim as
stated — remainder not exactly six digits, not six digits + separator + two
digits — requires no match. -/
theorem fn_filter_inddid_trailing_newline_cex :
    fn_filter_inddid "123456\n" = some "123456"
    ∧ filter_id_claimed "123456\n" = Option.none := by
  exact ⟨by decide, by decide⟩

/-- C1 as amended: `fn_filter_inddid` behaves exactly as the claim states,
except that the digit patterns additionally accept and drop one trailing
newline (the returned value excluding it); in particular all four of the
claim's examples hold. -/
theorem fn_filter_inddid_eq_amended :
    (∀ s : String, fn_filter_inddid s = filter_id_amended s)
    ∧ fn_filter_inddid "INDD123456" = some "123456"
    ∧ fn_filter_inddid "IND123456.07" = some "123456.07"
    ∧ fn_filter_inddid "abc123" = Option.none
    ∧ fn_filter_inddid "1234567" = Option.none := by
  refine ⟨?_, by decide, by decide, by decide, by decide⟩
  intro s
  unfold fn_filter_inddid filter_id_amended regexStripIND claimedStrip
  by_cases h4 : s.toList.take 4 = ['I', 'N', 'D', 'D']
  · simp only [h4, if_true]
    have hdecomp : s.toList = 'I' :: 'N' :: 'D' :: 'D' :: s.toList.drop 4 := by
      conv_lhs => rw [← List.take_append_drop 4 s.toList]
      rw [h4]
      rfl
    cases hm : matchDotStarDollar (s.toList.drop 4) with
    | some m =>
      simp only [hm]
      obtain ⟨hmd, hnl⟩ := mds_some _ m hm
      rw [patternResult_eq_coreChecks, dropFinalNewline_nlFree m hnl, hmd]
    | none =>
      have hd3 : s.toList.drop 3 = 'D' :: s.toList.drop 4 := by
        conv_lhs => rw [hdecomp]
        rfl
      simp only [hm, hd3, mds_none_cons _ hm]
      conv_lhs => rw [hdecomp]
      rw [patternResult_head_nondigit 'I' _ (by decide),
          coreChecks_nl _ (mds_none_nl _ hm)]
  · by_cases h3 : s.toList.take 3 = ['I', 'N', 'D']
    · simp only [h4, h3, if_true, if_false]
      have hdecomp : s.toList = 'I' :: 'N' :: 'D' :: s.toList.drop 3 := by
        conv_lhs => rw [← List.take_append_drop 3 s.toList]
        rw [h3]
        rfl
      cases hm : matchDotStarDollar (s.toList.drop 3) with
      | some m =>
        simp only [hm]
        obtain ⟨hmd, hnl⟩ := mds_some _ m hm
        rw [patternResult_eq_coreChecks, dropFinalNewline_nlFree m hnl, hmd]
      | none =>
        simp only [hm]
        conv_lhs => rw [hdecomp]
        rw [patternResult_head_nondigit 'I' _ (by decide),
            coreChecks_nl _ (mds_none_nl _ hm)]
    · simp only [h4, h3, if_false]
      exact patternResult_eq_coreChecks s.toList
